import Mathlib

/-!
# Verification of the test-run orchestration in `src/run-tests.js`

A shallow embedding of the CLI test runner (`TestRunner` and `main`).
External effects — `execSync`, `fs.existsSync` — are abstracted into an
environment record; everything else is translated directly from the source.
Console logging is modelled as the list of `(message, type)` pairs passed to
`TestRunner.log`; timestamps, ANSI colors and wall-clock durations carry no
data and are abstracted (durations become parameters).
-/

namespace RunTests

/-- Result of one `execSync` call: the captured stdout on exit code 0, or the
caught error (non-zero exit or timeout) carrying the error message and the
partial stdout (`error.stdout`). -/
inductive ExecResult where
  | ok (output : String)
  | err (message : String) (stdout : String)
deriving DecidableEq, Repr

/-- The process environment: behaviour of `execSync command (timeout?)`
(the second argument is the `timeout` option in milliseconds, `none` when the
call passes no timeout), and of `fs.existsSync`. -/
structure Env where
  exec : String → Option Nat → ExecResult
  fileExists : String → Bool

/-- One call to `TestRunner.log(message, type)`. -/
structure LogMsg where
  message : String
  type : String
deriving DecidableEq, Repr

/-- One entry of the hard-coded `testSuites` array in `runAllTests`
(lines 59–90 of `run-tests.js`). -/
structure Suite where
  name : String
  command : String
  critical : Bool
deriving DecidableEq, Repr

/-- The fixed category list of `runAllTests`, in source order. -/
def testSuites : List Suite :=
  [ { name := "Smoke Tests",
      command := "npx playwright test --grep \"@smoke\" --reporter=json",
      critical := true },
    { name := "API Tests",
      command := "npx playwright test --grep \"@api\" --reporter=json",
      critical := true },
    { name := "E2E Tests",
      command := "npx playwright test --grep \"@e2e\" --reporter=json",
      critical := false },
    { name := "Performance Tests",
      command := "npx playwright test --grep \"@performance\" --reporter=json",
      critical := false },
    { name := "Accessibility Tests",
      command := "npx playwright test --grep \"@a11y\" --reporter=json",
      critical := false },
    { name := "Security Tests",
      command := "npx playwright test --grep \"@security\" --reporter=json",
      critical := false } ]

/-- The `timeout: 300000` option (milliseconds) that `runTestSuite` passes to
`execSync` (line 44). -/
def suiteTimeoutMs : Nat := 300000

/-- Value returned by `TestRunner.runTestSuite`: `(success, output)` plus the
error message in the failure case. On success `output` is the captured stdout;
on failure it is `error.stdout`. -/
structure SuiteRunResult where
  success : Bool
  output : String
  errorMsg : Option String
deriving DecidableEq, Repr

/-- `TestRunner.runTestSuite(suiteName, command)` (lines 37–53): run the
command with a 300000 ms timeout; a non-zero exit or timeout is caught and
returned as `success := false` — never re-thrown. -/
def runTestSuite (env : Env) (suiteName command : String) :
    SuiteRunResult × List LogMsg :=
  match env.exec command (some suiteTimeoutMs) with
  | .ok output =>
      ({ success := true, output := output, errorMsg := none },
       [⟨"Starting " ++ suiteName ++ " tests...", "info"⟩,
        ⟨"✅ " ++ suiteName ++ " tests completed successfully", "success"⟩])
  | .err msg stdout =>
      ({ success := false, output := stdout, errorMsg := some msg },
       [⟨"Starting " ++ suiteName ++ " tests...", "info"⟩,
        ⟨"❌ " ++ suiteName ++ " tests failed: " ++ msg, "error"⟩])

/-- One element pushed onto `this.results.suites` (lines 98–103). -/
structure SuiteEntry where
  name : String
  success : Bool
  critical : Bool
  output : String
deriving DecidableEq, Repr

/-- `this.results` as initialised in the `TestRunner` constructor
(lines 15–21). -/
structure Results where
  total : Nat
  passed : Nat
  failed : Nat
  skipped : Nat
  suites : List SuiteEntry
deriving DecidableEq, Repr

/-- The constructor's initial `results` value: all counters 0, empty suite
list. -/
def initResults : Results :=
  { total := 0, passed := 0, failed := 0, skipped := 0, suites := [] }

/-- The mutable state of the `runAllTests` loop (lines 92–114): the runner's
`results` object, the two local failure counters, and — for bookkeeping — the
display names passed to `runTestSuite`, in call order. -/
structure LoopState where
  results : Results
  criticalFailures : Nat
  totalFailures : Nat
  invoked : List String
deriving DecidableEq, Repr

/-- State at entry of the `runAllTests` loop:
`criticalFailures = totalFailures = 0`, constructor-fresh `results`. -/
def initLoopState : LoopState :=
  { results := initResults, criticalFailures := 0, totalFailures := 0,
    invoked := [] }

/-- The `for (const suite of testSuites)` loop body of `runAllTests`
(lines 95–114): invoke the suite, push a `SuiteEntry`, bump the failure
counters when the suite failed (and the critical counter when it is also
critical), and continue with the next suite. The 2000 ms inter-suite delay
has no observable effect in this model. -/
def runSuitesLoop (env : Env) : List Suite → LoopState → LoopState
  | [], st => st
  | suite :: rest, st =>
      let r := (runTestSuite env suite.name suite.command).1
      let st' : LoopState :=
        { results :=
            { st.results with
              suites := st.results.suites ++
                [{ name := suite.name, success := r.success,
                   critical := suite.critical, output := r.output }] },
          criticalFailures :=
            st.criticalFailures + (if !r.success && suite.critical then 1 else 0),
          totalFailures := st.totalFailures + (if !r.success then 1 else 0),
          invoked := st.invoked ++ [suite.name] }
      runSuitesLoop env rest st'

/-- `TestRunner.runAllTests` up to the report generation (lines 55–114): run
every suite of `testSuites` in order from the fresh state. -/
def runAllTests (env : Env) : LoopState :=
  runSuitesLoop env testSuites initLoopState

/-- The `'=' .repeat(60)` separator line. -/
def sixtyEquals : String :=
  String.mk (List.replicate 60 '=')

/-- `TestRunner.generateSummaryReport(criticalFailures, totalFailures)`
(lines 120–144), as the list of `log` calls it makes. `duration` abstracts
the wall-clock computation of line 121. -/
def generateSummaryReport (results : Results)
    (criticalFailures totalFailures : Nat) (duration : Nat) : List LogMsg :=
  [⟨sixtyEquals, "info"⟩,
   ⟨"📊 TEST EXECUTION SUMMARY", "info"⟩,
   ⟨sixtyEquals, "info"⟩,
   ⟨"⏱️  Total execution time: " ++ toString duration ++ " seconds", "info"⟩,
   ⟨"📋 Test suites executed: " ++ toString results.suites.length, "info"⟩,
   ⟨"✅ Successful suites: " ++
      toString (results.suites.filter (fun s => s.success)).length, "success"⟩,
   ⟨"❌ Failed suites: " ++ toString totalFailures,
      if totalFailures > 0 then "error" else "info"⟩,
   ⟨"🚨 Critical failures: " ++ toString criticalFailures,
      if criticalFailures > 0 then "error" else "success"⟩]
  ++ summaryVerdictLogs criticalFailures totalFailures
  ++ [⟨sixtyEquals, "info"⟩]
where
  /-- The `if / else if / else` verdict block, lines 133–141. -/
  summaryVerdictLogs (criticalFailures totalFailures : Nat) : List LogMsg :=
    if criticalFailures > 0 then
      [⟨"⚠️  CRITICAL TEST FAILURES DETECTED!", "error"⟩,
       ⟨"   Please review and fix critical issues before deployment.", "error"⟩]
    else if totalFailures > 0 then
      [⟨"⚠️  Some non-critical tests failed.", "warn"⟩,
       ⟨"   Consider reviewing these issues for optimal quality.", "warn"⟩]
    else
      [⟨"🎉 ALL TESTS PASSED! Ready for deployment.", "success"⟩]

/-- The `summary` sub-object built by `generateDetailedReport`
(lines 160–165). -/
structure Summary where
  totalSuites : Nat
  passedSuites : Nat
  failedSuites : Nat
  criticalFailures : Nat
deriving DecidableEq, Repr

/-- The JSON report object written to `test-results/summary-report.json`
(lines 155–166). `timestamp` and `duration` are wall-clock values and
abstracted away; `environment` is `process.env.NODE_ENV || 'production'`,
passed in as a parameter. -/
structure Report where
  environment : String
  results : Results
  summary : Summary
deriving DecidableEq, Repr

/-- `TestRunner.generateDetailedReport` (lines 146–170): serialise the
runner's `results` verbatim, plus the derived `summary` counts computed by
filtering `results.suites`. -/
def generateDetailedReport (environment : String) (results : Results) :
    Report :=
  { environment := environment,
    results := results,
    summary :=
      { totalSuites := results.suites.length,
        passedSuites := (results.suites.filter (fun s => s.success)).length,
        failedSuites := (results.suites.filter (fun s => !s.success)).length,
        criticalFailures :=
          (results.suites.filter (fun s => !s.success && s.critical)).length } }

/-- `TestRunner.checkPrerequisites` (lines 172–203). Returns `some 1` when it
called `process.exit(1)` — which happens exactly when
`npx playwright --version` fails — and `none` when it ran to completion: the
browser-directory check and the `ping -c 1 li.fi` connectivity check only log
(a warning on failure) and never exit. The log list is returned alongside. -/
def checkPrerequisites (env : Env) : Option Nat × List LogMsg :=
  match env.exec "npx playwright --version" none with
  | .err _ _ =>
      (some 1,
       [⟨"🔍 Checking prerequisites...", "info"⟩,
        ⟨"❌ Playwright not found. Run: npm install", "error"⟩])
  | .ok _ =>
      let browserLog : LogMsg :=
        if env.fileExists "node_modules/@playwright/test" then
          ⟨"✅ Playwright browsers are available", "success"⟩
        else
          ⟨"⚠️  Playwright browsers may not be installed. Run: npx playwright install", "warn"⟩
      let netLog : LogMsg :=
        match env.exec "ping -c 1 li.fi" (some 5000) with
        | .ok _ => ⟨"✅ Network connectivity to li.fi confirmed", "success"⟩
        | .err _ _ => ⟨"⚠️  Network connectivity issue detected", "warn"⟩
      (none,
       [⟨"🔍 Checking prerequisites...", "info"⟩,
        ⟨"✅ Playwright is installed", "success"⟩, browserLog, netLog])

/-- `Array.prototype.indexOf`, specialised to strings: index of the first
occurrence of `target`, scanning from position `i`. -/
def indexOfFrom (target : String) : List String → Nat → Option Nat
  | [], _ => none
  | a :: rest, i => if a = target then some i else indexOfFrom target rest (i + 1)

/-- `--suite` argument lookup (lines 245–246): `args.indexOf('--suite')`
followed by a truthiness check of `args[suiteIndex + 1]` — a present but
empty string is falsy in JS, so it does not select the branch. -/
def suiteArg (args : List String) : Option String :=
  match indexOfFrom "--suite" args 0 with
  | none => none
  | some i =>
      match args[i + 1]? with
      | some name => if name = "" then none else some name
      | none => none

/-- Observable outcome of one CLI invocation (`main`, lines 207–263, plus the
process exit): the display names passed to `runTestSuite` in call order,
the aggregate JSON artifact if `generateDetailedReport` ran, the runner's
`results` state when the process ends, and the process exit code. -/
structure MainResult where
  suitesInvoked : List String
  reportWritten : Option Report
  finalResults : Results
  exitCode : Nat
deriving DecidableEq, Repr

/-- `main(args)` together with the resulting process exit code. Branches in
source order: `--help`/`-h`, then `--check-prereq`, then `--suite <name>`,
then `--quick`, else the full run (`checkPrerequisites` followed by
`runAllTests`). No code path after a completed `runAllTests` calls
`process.exit`, so a completed run — with or without suite failures — ends
with exit code 0; the only non-zero exit reachable in this model is the
`process.exit(1)` inside `checkPrerequisites`. -/
def mainRun (args : List String) (env : Env) (environment : String) :
    MainResult :=
  if args.contains "--help" || args.contains "-h" then
    { suitesInvoked := [], reportWritten := none, finalResults := initResults,
      exitCode := 0 }
  else if args.contains "--check-prereq" then
    match (checkPrerequisites env).1 with
    | some c =>
        { suitesInvoked := [], reportWritten := none,
          finalResults := initResults, exitCode := c }
    | none =>
        { suitesInvoked := [], reportWritten := none,
          finalResults := initResults, exitCode := 0 }
  else
    match suiteArg args with
    | some name =>
        let _ := runTestSuite env (name ++ " tests")
          ("npx playwright test --grep \"@" ++ name ++ "\"")
        { suitesInvoked := [name ++ " tests"], reportWritten := none,
          finalResults := initResults, exitCode := 0 }
    | none =>
        if args.contains "--quick" then
          let _ := runTestSuite env "Smoke Tests"
            "npx playwright test --grep \"@smoke\""
          let _ := runTestSuite env "API Tests"
            "npx playwright test --grep \"@api\""
          { suitesInvoked := ["Smoke Tests", "API Tests"],
            reportWritten := none, finalResults := initResults, exitCode := 0 }
        else
          match (checkPrerequisites env).1 with
          | some c =>
              { suitesInvoked := [], reportWritten := none,
                finalResults := initResults, exitCode := c }
          | none =>
              let st := runAllTests env
              let report := generateDetailedReport environment st.results
              { suitesInvoked := st.invoked, reportWritten := some report,
                finalResults := st.results, exitCode := 0 }

/-- Run-level classification names used by the specification. -/
inductive Classification where
  | allPass
  | nonCriticalFailure
  | criticalFailure
deriving DecidableEq, Repr

/-- The classification the code computes: which branch of the verdict block
(lines 133–141) `generateSummaryReport` takes, as a function of the two
counters `runAllTests` hands it. -/
def summaryClassification (criticalFailures totalFailures : Nat) :
    Classification :=
  if criticalFailures > 0 then .criticalFailure
  else if totalFailures > 0 then .nonCriticalFailure
  else .allPass

/-- Modelled from the spec (refinement target): "if any critical category
failed → critical-failure; else if any category failed →
non-critical-failure; else all-pass", applied to the accumulated
`CategoryResult` list. -/
def specClassify (suites : List SuiteEntry) : Classification :=
  if suites.any (fun s => !s.success && s.critical) then .criticalFailure
  else if suites.any (fun s => !s.success) then .nonCriticalFailure
  else .allPass

/-- The console lines the verdict block emits for each classification
(lines 133–141 of the source). -/
def classificationLogs : Classification → List LogMsg
  | .criticalFailure =>
      [⟨"⚠️  CRITICAL TEST FAILURES DETECTED!", "error"⟩,
       ⟨"   Please review and fix critical issues before deployment.", "error"⟩]
  | .nonCriticalFailure =>
      [⟨"⚠️  Some non-critical tests failed.", "warn"⟩,
       ⟨"   Consider reviewing these issues for optimal quality.", "warn"⟩]
  | .allPass =>
      [⟨"🎉 ALL TESTS PASSED! Ready for deployment.", "success"⟩]

/-- The `SuiteEntry` that one loop iteration pushes for a given suite. -/
def suiteEntryOf (env : Env) (s : Suite) : SuiteEntry :=
  { name := s.name, success := (runTestSuite env s.name s.command).1.success,
    critical := s.critical,
    output := (runTestSuite env s.name s.command).1.output }

/-! ## Characterisation of the `runAllTests` loop -/

theorem runSuitesLoop_spec (env : Env) (l : List Suite) (st : LoopState) :
    runSuitesLoop env l st =
      { results :=
          { st.results with
            suites := st.results.suites ++ l.map (suiteEntryOf env) },
        criticalFailures := st.criticalFailures +
          ((l.map (suiteEntryOf env)).filter
            (fun e => !e.success && e.critical)).length,
        totalFailures := st.totalFailures +
          ((l.map (suiteEntryOf env)).filter (fun e => !e.success)).length,
        invoked := st.invoked ++ l.map (fun s => s.name) } := by
  induction l generalizing st with
  | nil => simp [runSuitesLoop]
  | cons s rest ih =>
      rw [runSuitesLoop, ih]
      simp only [List.map_cons, List.filter_cons, List.append_assoc,
        List.cons_append, List.nil_append]
      have hs : (suiteEntryOf env s).success =
          (runTestSuite env s.name s.command).1.success := rfl
      have hc : (suiteEntryOf env s).critical = s.critical := rfl
      cases hsucc : (runTestSuite env s.name s.command).1.success with
      | true =>
          simp [suiteEntryOf, hsucc, LoopState.mk.injEq, Results.mk.injEq]
      | false =>
          cases hcrit : s.critical with
          | true =>
              simp [suiteEntryOf, hsucc, hcrit, LoopState.mk.injEq,
                Results.mk.injEq, List.length_cons]
              omega
          | false =>
              simp [suiteEntryOf, hsucc, hcrit, LoopState.mk.injEq,
                Results.mk.injEq, List.length_cons]
              omega

theorem runAllTests_suites (env : Env) :
    (runAllTests env).results.suites = testSuites.map (suiteEntryOf env) := by
  rw [runAllTests, runSuitesLoop_spec]
  simp [initLoopState, initResults]

theorem runAllTests_invoked (env : Env) :
    (runAllTests env).invoked = testSuites.map (fun s => s.name) := by
  rw [runAllTests, runSuitesLoop_spec]
  simp [initLoopState, initResults]

theorem runAllTests_criticalFailures (env : Env) :
    (runAllTests env).criticalFailures =
      ((runAllTests env).results.suites.filter
        (fun e => !e.success && e.critical)).length := by
  rw [runAllTests, runSuitesLoop_spec]
  simp [initLoopState, initResults]

theorem runAllTests_totalFailures (env : Env) :
    (runAllTests env).totalFailures =
      ((runAllTests env).results.suites.filter
        (fun e => !e.success)).length := by
  rw [runAllTests, runSuitesLoop_spec]
  simp [initLoopState, initResults]

/-- Counting elements satisfying a conjunction never exceeds counting those
satisfying one conjunct. -/
theorem length_filter_and_le {α : Type} (p q : α → Bool) (l : List α) :
    (l.filter (fun a => p a && q a)).length ≤ (l.filter p).length := by
  induction l with
  | nil => simp
  | cons x xs ih =>
      simp only [List.filter_cons]
      cases hp : p x with
      | false => simpa [hp] using ih
      | true =>
          cases hq : q x with
          | false => simpa [hp, hq] using Nat.le_succ_of_le ih
          | true => simpa [hp, hq] using Nat.succ_le_succ ih

/-- A filter is non-empty exactly when some element satisfies the
predicate. -/
theorem length_filter_pos_iff_any {α : Type} (p : α → Bool) (l : List α) :
    0 < (l.filter p).length ↔ l.any p = true := by
  induction l with
  | nil => simp
  | cons x xs ih =>
      simp only [List.filter_cons, List.any_cons]
      cases hp : p x with
      | false => simpa [hp] using ih
      | true => simp [hp]

/-- The number of elements satisfying `p` and `q` never exceeds the number
satisfying `p` alone plus the rest: counting a partition. -/
theorem length_filter_add_length_filter_not {α : Type} (p : α → Bool)
    (l : List α) :
    (l.filter p).length + (l.filter (fun a => !p a)).length = l.length := by
  induction l with
  | nil => rfl
  | cons x xs ih =>
      simp only [List.filter_cons]
      cases hp : p x <;> simp [hp] <;> omega

/-- The verdict block is the `classificationLogs` of the branch
`summaryClassification` selects. -/
theorem summaryVerdictLogs_eq_classificationLogs
    (criticalFailures totalFailures : Nat) :
    generateSummaryReport.summaryVerdictLogs criticalFailures totalFailures =
      classificationLogs (summaryClassification criticalFailures totalFailures) := by
  unfold generateSummaryReport.summaryVerdictLogs summaryClassification
  by_cases h1 : 0 < criticalFailures <;> by_cases h2 : 0 < totalFailures <;>
    simp [h1, h2, classificationLogs]

/-- The counter-driven branch choice agrees with the spec rule applied to the
accumulated list, whenever the counters are the list's filter counts. -/
theorem summaryClassification_eq_specClassify (L : List SuiteEntry) :
    summaryClassification
        ((L.filter (fun e => !e.success && e.critical)).length)
        ((L.filter (fun e => !e.success)).length) =
      specClassify L := by
  unfold summaryClassification specClassify
  by_cases h1 : L.any (fun s => !s.success && s.critical) = true
  · rw [if_pos ((length_filter_pos_iff_any _ _).2 h1), if_pos h1]
  · have e1 : ¬ 0 < (L.filter (fun e => !e.success && e.critical)).length :=
      fun hp => h1 ((length_filter_pos_iff_any _ _).1 hp)
    rw [if_neg e1, if_neg h1]
    by_cases h2 : L.any (fun s => !s.success) = true
    · rw [if_pos ((length_filter_pos_iff_any _ _).2 h2), if_pos h2]
    · have e2 : ¬ 0 < (L.filter (fun e => !e.success)).length :=
        fun hp => h2 ((length_filter_pos_iff_any _ _).1 hp)
      rw [if_neg e2, if_neg h2]

/-! ## Claims -/

/-- C2: in every full run, the classification computed from the failure
counters follows the spec rule (any critical failure → critical-failure;
else any failure → non-critical-failure; else all-pass), and the console
summary's verdict block prints exactly the lines for that classification. -/
theorem C2_classification_rule_and_reported (env : Env) (duration : Nat) :
    summaryClassification (runAllTests env).criticalFailures
        (runAllTests env).totalFailures =
      specClassify (runAllTests env).results.suites ∧
    generateSummaryReport.summaryVerdictLogs (runAllTests env).criticalFailures
        (runAllTests env).totalFailures =
      classificationLogs (specClassify (runAllTests env).results.suites) ∧
    List.Sublist
      (classificationLogs (specClassify (runAllTests env).results.suites))
      (generateSummaryReport (runAllTests env).results
        (runAllTests env).criticalFailures (runAllTests env).totalFailures
        duration) := by
  have h1 : summaryClassification (runAllTests env).criticalFailures
      (runAllTests env).totalFailures =
      specClassify (runAllTests env).results.suites := by
    rw [runAllTests_criticalFailures, runAllTests_totalFailures]
    exact summaryClassification_eq_specClassify _
  have h2 : generateSummaryReport.summaryVerdictLogs
      (runAllTests env).criticalFailures (runAllTests env).totalFailures =
      classificationLogs (specClassify (runAllTests env).results.suites) := by
    rw [summaryVerdictLogs_eq_classificationLogs, h1]
  refine ⟨h1, h2, ?_⟩
  rw [← h2]
  unfold generateSummaryReport
  exact List.Sublist.trans (List.sublist_append_right _ _)
    (List.sublist_append_left _ _)

/-- C3: after every category invocation of a full run (i.e. after running any
prefix of the category list), the critical-failure counter is at most the
total-failure counter, which is at most the number of categories invoked so
far. -/
theorem C3_failure_count_invariant (env : Env) (k : Nat) :
    (runSuitesLoop env (testSuites.take k) initLoopState).criticalFailures ≤
      (runSuitesLoop env (testSuites.take k) initLoopState).totalFailures ∧
    (runSuitesLoop env (testSuites.take k) initLoopState).totalFailures ≤
      (runSuitesLoop env (testSuites.take k) initLoopState).invoked.length := by
  rw [runSuitesLoop_spec]
  simp only [initLoopState, initResults, List.nil_append, Nat.zero_add,
    List.length_map]
  constructor
  · exact length_filter_and_le (fun e : SuiteEntry => !e.success)
      (fun e : SuiteEntry => e.critical) _
  · exact le_trans (List.length_filter_le _ _)
      (le_of_eq (List.length_map _ _))

/-- On a bare invocation (no CLI arguments) `main` runs the prerequisite
check and then, provided the automation tool was found, the full suite. -/
theorem mainRun_nil_eq (env : Env) (environment : String) :
    mainRun [] env environment =
      match (checkPrerequisites env).1 with
      | some c =>
          { suitesInvoked := [], reportWritten := none,
            finalResults := initResults, exitCode := c }
      | none =>
          { suitesInvoked := (runAllTests env).invoked,
            reportWritten :=
              some (generateDetailedReport environment (runAllTests env).results),
            finalResults := (runAllTests env).results, exitCode := 0 } := rfl

/-- Full run when the prerequisite check aborts with `process.exit`. -/
theorem mainRun_nil_of_prereq_missing (env : Env) (environment : String)
    (c : Nat) (hcp : (checkPrerequisites env).1 = some c) :
    mainRun [] env environment =
      { suitesInvoked := [], reportWritten := none,
        finalResults := initResults, exitCode := c } := by
  rw [mainRun_nil_eq, hcp]

/-- Full run when the prerequisite check completes: all suites run and the
aggregate report is written; the process exits 0. -/
theorem mainRun_nil_of_prereq_ok (env : Env) (environment : String)
    (hcp : (checkPrerequisites env).1 = none) :
    mainRun [] env environment =
      { suitesInvoked := (runAllTests env).invoked,
        reportWritten :=
          some (generateDetailedReport environment (runAllTests env).results),
        finalResults := (runAllTests env).results, exitCode := 0 } := by
  rw [mainRun_nil_eq, hcp]

/-- C4: in the persisted report of every full run, `summary.totalSuites`
equals the number of categories invoked, and
`summary.passedSuites + summary.failedSuites = summary.totalSuites`. -/
theorem C4_report_counts (env : Env) (environment : String) (rep : Report)
    (h : (mainRun [] env environment).reportWritten = some rep) :
    rep.summary.totalSuites =
      (mainRun [] env environment).suitesInvoked.length ∧
    rep.summary.passedSuites + rep.summary.failedSuites =
      rep.summary.totalSuites := by
  cases hcp : (checkPrerequisites env).1 with
  | some c =>
      rw [mainRun_nil_of_prereq_missing env environment c hcp] at h
      simp at h
  | none =>
      rw [mainRun_nil_of_prereq_ok env environment hcp] at h ⊢
      simp only [Option.some.injEq] at h
      subst h
      constructor
      · simp [generateDetailedReport, runAllTests_suites, runAllTests_invoked]
      · simp only [generateDetailedReport]
        exact length_filter_add_length_filter_not
          (fun s : SuiteEntry => s.success) _

/-- C5: the per-suite `execSync` call is bounded by a 300 s timeout; a
non-zero exit or timeout is caught and recorded as a failed entry, and the
full run still invokes every category in the list — no suite outcome aborts
the run. -/
theorem C5_failures_recorded_and_run_continues (env : Env) :
    suiteTimeoutMs = 300 * 1000 ∧
    (runAllTests env).invoked = testSuites.map (fun s => s.name) ∧
    (runAllTests env).results.suites = testSuites.map (suiteEntryOf env) ∧
    ∀ s, s ∈ testSuites →
      ((suiteEntryOf env s).success = false ↔
        ∃ m o, env.exec s.command (some suiteTimeoutMs) =
          ExecResult.err m o) := by
  refine ⟨rfl, runAllTests_invoked env, runAllTests_suites env, ?_⟩
  intro s _
  unfold suiteEntryOf runTestSuite
  cases hx : env.exec s.command (some suiteTimeoutMs) with
  | ok o => simp
  | err m o => simp

/-- `--check-prereq` runs only the prerequisite check; the exit code is the
one `checkPrerequisites` produced (0 when it completed). -/
theorem mainRun_checkPrereq_eq (env : Env) (environment : String) :
    mainRun ["--check-prereq"] env environment =
      match (checkPrerequisites env).1 with
      | some c =>
          { suitesInvoked := [], reportWritten := none,
            finalResults := initResults, exitCode := c }
      | none =>
          { suitesInvoked := [], reportWritten := none,
            finalResults := initResults, exitCode := 0 } := rfl

/-- C6: `--suite <name>` invokes exactly one category — the named one, under
its `<name> tests` display name — and writes no aggregate JSON artifact. -/
theorem C6_single_suite (env : Env) (environment : String) (name : String)
    (h1 : name ≠ "") (h2 : name ≠ "--help") (h3 : name ≠ "-h")
    (h4 : name ≠ "--check-prereq") :
    (mainRun ["--suite", name] env environment).suitesInvoked =
      [name ++ " tests"] ∧
    (mainRun ["--suite", name] env environment).reportWritten = none := by
  have hs : suiteArg ["--suite", name] = some name := by
    unfold suiteArg indexOfFrom
    simp [h1]
  unfold mainRun
  rw [hs]
  simp [List.contains_cons, Ne.symm h2, Ne.symm h3, Ne.symm h4]

theorem C6_witness :
    (("smoke" : String) ≠ "" ∧ ("smoke" : String) ≠ "--help" ∧
     ("smoke" : String) ≠ "-h" ∧ ("smoke" : String) ≠ "--check-prereq") ∧
    ((mainRun ["--suite", "smoke"]
        { exec := fun _ _ => ExecResult.ok "", fileExists := fun _ => true }
        "production").suitesInvoked = ["smoke tests"] ∧
     (mainRun ["--suite", "smoke"]
        { exec := fun _ _ => ExecResult.ok "", fileExists := fun _ => true }
        "production").reportWritten = none) :=
  ⟨by decide,
   C6_single_suite
     { exec := fun _ _ => ExecResult.ok "", fileExists := fun _ => true }
     "production" "smoke" (by decide) (by decide) (by decide) (by decide)⟩

/-- C8: in the persisted artifact of every full run, the suite entries appear
exactly in invocation order. -/
theorem C8_artifact_order (env : Env) (environment : String) (rep : Report)
    (h : (mainRun [] env environment).reportWritten = some rep) :
    rep.results.suites.map (fun e => e.name) =
      (mainRun [] env environment).suitesInvoked := by
  cases hcp : (checkPrerequisites env).1 with
  | some c =>
      rw [mainRun_nil_of_prereq_missing env environment c hcp] at h
      simp at h
  | none =>
      rw [mainRun_nil_of_prereq_ok env environment hcp] at h ⊢
      simp only [Option.some.injEq] at h
      subst h
      simp [generateDetailedReport, runAllTests_suites, runAllTests_invoked,
        suiteEntryOf, Function.comp]

/-- Environment for concrete runs in which every command succeeds. -/
def envAllOk : Env :=
  { exec := fun _ _ => ExecResult.ok "", fileExists := fun _ => true }

/-- Environment in which every command succeeds except the smoke category's
test command, which fails. -/
def envSmokeFails : Env :=
  { exec := fun cmd _ =>
      if cmd = "npx playwright test --grep \"@smoke\" --reporter=json" then
        ExecResult.err "Command failed" ""
      else ExecResult.ok "",
    fileExists := fun _ => true }

/-- The aggregate report a full run writes under a given environment. -/
def reportOf (env : Env) : Report :=
  generateDetailedReport "production" (runAllTests env).results

theorem C8_witness :
    (mainRun [] envSmokeFails "production").reportWritten =
      some (reportOf envSmokeFails) ∧
    (reportOf envSmokeFails).results.suites.map (fun e => e.name) =
      (mainRun [] envSmokeFails "production").suitesInvoked :=
  ⟨by rfl,
   C8_artifact_order envSmokeFails "production" (reportOf envSmokeFails)
     (by rfl)⟩

theorem C4_witness :
    (mainRun [] envAllOk "production").reportWritten =
      some (reportOf envAllOk) ∧
    ((reportOf envAllOk).summary.totalSuites =
        (mainRun [] envAllOk "production").suitesInvoked.length ∧
     (reportOf envAllOk).summary.passedSuites +
         (reportOf envAllOk).summary.failedSuites =
       (reportOf envAllOk).summary.totalSuites) :=
  ⟨by rfl,
   C4_report_counts envAllOk "production" (reportOf envAllOk) (by rfl)⟩

theorem C5_witness :
    suiteTimeoutMs = 300 * 1000 ∧
    ((suiteEntryOf envSmokeFails
        { name := "Smoke Tests",
          command := "npx playwright test --grep \"@smoke\" --reporter=json",
          critical := true }).success = false ↔
      ∃ m o, envSmokeFails.exec
          "npx playwright test --grep \"@smoke\" --reporter=json"
          (some suiteTimeoutMs) = ExecResult.err m o) :=
  ⟨(C5_failures_recorded_and_run_continues envSmokeFails).1,
   (C5_failures_recorded_and_run_continues envSmokeFails).2.2.2
     { name := "Smoke Tests",
       command := "npx playwright test --grep \"@smoke\" --reporter=json",
       critical := true } (by decide)⟩

/-- C9: `--quick` invokes exactly the Smoke and API categories, writes no
aggregate JSON artifact, and appends nothing to the runner's result list. -/
theorem C9_quick_mode (env : Env) (environment : String) :
    (mainRun ["--quick"] env environment).suitesInvoked =
      ["Smoke Tests", "API Tests"] ∧
    (mainRun ["--quick"] env environment).reportWritten = none ∧
    (mainRun ["--quick"] env environment).finalResults.suites = [] :=
  ⟨rfl, rfl, rfl⟩

/-- The top-level counters of the runner's `results` object are never
mutated by a run. -/
theorem runAllTests_counters (env : Env) :
    (runAllTests env).results.total = 0 ∧
    (runAllTests env).results.passed = 0 ∧
    (runAllTests env).results.failed = 0 ∧
    (runAllTests env).results.skipped = 0 := by
  rw [runAllTests, runSuitesLoop_spec]
  simp [initLoopState, initResults]

/-- C10: in the JSON artifact of every full run, the embedded `results`
counters `total`, `passed`, `failed`, `skipped` are all 0 regardless of
category outcomes; only the `summary` sub-object's counts are derived from
the actual outcomes (by filtering the suite entries). -/
theorem C10_embedded_counters_zero (env : Env) (environment : String)
    (rep : Report)
    (h : (mainRun [] env environment).reportWritten = some rep) :
    rep.results.total = 0 ∧ rep.results.passed = 0 ∧
    rep.results.failed = 0 ∧ rep.results.skipped = 0 ∧
    rep.summary.totalSuites = rep.results.suites.length ∧
    rep.summary.passedSuites =
      (rep.results.suites.filter (fun s => s.success)).length ∧
    rep.summary.failedSuites =
      (rep.results.suites.filter (fun s => !s.success)).length ∧
    rep.summary.criticalFailures =
      (rep.results.suites.filter (fun s => !s.success && s.critical)).length := by
  cases hcp : (checkPrerequisites env).1 with
  | some c =>
      rw [mainRun_nil_of_prereq_missing env environment c hcp] at h
      simp at h
  | none =>
      rw [mainRun_nil_of_prereq_ok env environment hcp] at h
      simp only [Option.some.injEq] at h
      subst h
      exact ⟨(runAllTests_counters env).1, (runAllTests_counters env).2.1,
        (runAllTests_counters env).2.2.1, (runAllTests_counters env).2.2.2,
        rfl, rfl, rfl, rfl⟩

theorem C10_witness :
    (mainRun [] envSmokeFails "production").reportWritten =
      some (reportOf envSmokeFails) ∧
    ((reportOf envSmokeFails).results.total = 0 ∧
     (reportOf envSmokeFails).results.passed = 0 ∧
     (reportOf envSmokeFails).results.failed = 0 ∧
     (reportOf envSmokeFails).results.skipped = 0 ∧
     (reportOf envSmokeFails).summary.totalSuites =
       (reportOf envSmokeFails).results.suites.length ∧
     (reportOf envSmokeFails).summary.passedSuites =
       ((reportOf envSmokeFails).results.suites.filter
         (fun s => s.success)).length ∧
     (reportOf envSmokeFails).summary.failedSuites =
       ((reportOf envSmokeFails).results.suites.filter
         (fun s => !s.success)).length ∧
     (reportOf envSmokeFails).summary.criticalFailures =
       ((reportOf envSmokeFails).results.suites.filter
         (fun s => !s.success && s.critical)).length) :=
  ⟨by rfl,
   C10_embedded_counters_zero envSmokeFails "production"
     (reportOf envSmokeFails) (by rfl)⟩

/-- C1 counterexample: a full run in which the critical smoke category fails
still ends with exit code 0 — no code path after `runAllTests` turns critical
failures into a non-zero exit code. -/
theorem C1_counterexample :
    0 < ((mainRun [] envSmokeFails "production").finalResults.suites.filter
        (fun s => !s.success && s.critical)).length ∧
    (mainRun [] envSmokeFails "production").exitCode = 0 := by
  refine ⟨?_, ?_⟩ <;> decide

/-- C1 amended: the full run's exit code is independent of category
outcomes — it is 0 whenever the prerequisite check finds the automation
tool (even with critical failures), and 1 when the tool is missing. -/
theorem C1_amended_exit_code (env : Env) (environment : String) :
    (mainRun [] env environment).exitCode =
      (match env.exec "npx playwright --version" none with
       | ExecResult.ok _ => 0
       | ExecResult.err _ _ => 1) := by
  cases hx : env.exec "npx playwright --version" none with
  | ok o =>
      have hcp : (checkPrerequisites env).1 = none := by
        unfold checkPrerequisites
        rw [hx]
      rw [mainRun_nil_of_prereq_ok env environment hcp]
  | err m s =>
      have hcp : (checkPrerequisites env).1 = some 1 := by
        unfold checkPrerequisites
        rw [hx]
      rw [mainRun_nil_of_prereq_missing env environment 1 hcp]

/-- Environment in which every command succeeds except the network check
(`ping -c 1 li.fi`), which fails. -/
def envPingFails : Env :=
  { exec := fun cmd _ =>
      if cmd = "ping -c 1 li.fi" then ExecResult.err "timeout" ""
      else ExecResult.ok "",
    fileExists := fun _ => true }

/-- C7 counterexample: with the automation tool present but the network
target unreachable, `--check-prereq` exits 0 — the failed ping only produces
a console warning — contradicting "exits non-zero whenever either the tool
or the network target is unreachable". -/
theorem C7_counterexample :
    envPingFails.exec "ping -c 1 li.fi" (some 5000) =
      ExecResult.err "timeout" "" ∧
    (mainRun ["--check-prereq"] envPingFails "production").suitesInvoked =
      [] ∧
    (mainRun ["--check-prereq"] envPingFails "production").exitCode = 0 ∧
    (checkPrerequisites envPingFails).2.contains
      ⟨"⚠️  Network connectivity issue detected", "warn"⟩ = true := by
  refine ⟨?_, ?_, ?_, ?_⟩ <;> decide

/-- C7 amended: `--check-prereq` invokes zero categories and writes no
artifact; it exits non-zero (1) exactly when the browser-automation tool is
unreachable — an unreachable network target is only warned about and the
exit code stays 0. -/
theorem C7_amended_behavior (env : Env) (environment : String) :
    (mainRun ["--check-prereq"] env environment).suitesInvoked = [] ∧
    (mainRun ["--check-prereq"] env environment).reportWritten = none ∧
    (mainRun ["--check-prereq"] env environment).exitCode =
      (match env.exec "npx playwright --version" none with
       | ExecResult.ok _ => 0
       | ExecResult.err _ _ => 1) := by
  rw [mainRun_checkPrereq_eq]
  cases hx : env.exec "npx playwright --version" none with
  | ok o =>
      have hcp : (checkPrerequisites env).1 = none := by
        unfold checkPrerequisites
        rw [hx]
      rw [hcp]
      exact ⟨rfl, rfl, rfl⟩
  | err m s =>
      have hcp : (checkPrerequisites env).1 = some 1 := by
        unfold checkPrerequisites
        rw [hx]
      rw [hcp]
      exact ⟨rfl, rfl, rfl⟩

end RunTests
